import Mathlib

/-!
Verification of the Intent Routing & Stateful Conversation Engine of the
`demo-wesharing-llm` worker (`src/index.ts`, `src/types.ts`).

The TypeScript source is shallowly embedded: JSON values are modelled by the
inductive `JVal`, the external key-value store by an association list
`Store`, and the external text-completion gateway (an LLM) by explicit
oracle inputs (an `Option String` reply for the intent classifier, an
`ExtractOutcome` for per-field extraction, and failure flags for each
fallible external operation).  Stateful handlers become pure functions from
the oracle and the store to the updated store and the response value.
-/

set_option autoImplicit false

namespace WeSharing

/-! ## JavaScript value model -/

/-- A JSON/JavaScript runtime value.  `null` also stands for `undefined`
(the two are only distinguished in the source by `!== null`, which treats a
genuinely `undefined` extraction the same way as any other non-null value;
no claim depends on that corner, so a single bottom value is used). -/
inductive JVal where
  | null
  | bool (b : Bool)
  | num (n : Int)
  | str (s : String)
  | arr (elems : List JVal)
  | obj (fields : List (String × JVal))

/-- JavaScript truthiness of a value: `null`/`undefined`, `false`, `0` and
`""` are falsy; every array and object is truthy. -/
def truthy : JVal → Bool
  | .null => false
  | .bool b => b
  | .num n => n != 0
  | .str s => s != ""
  | .arr _ => true
  | .obj _ => true

/-- The JavaScript `a || b` defaulting idiom used throughout the source. -/
def jsOr (a b : JVal) : JVal := if truthy a then a else b

mutual

/-- JavaScript string conversion, as used by template literals in the
source (`${value}`): strings verbatim, numbers in decimal, arrays joined
with `,`, objects as `[object Object]`. -/
def jsToString : JVal → String
  | .null => "null"
  | .bool b => if b then "true" else "false"
  | .num n => toString n
  | .str s => s
  | .arr xs => jsArrToString xs
  | .obj _ => "[object Object]"

/-- `Array.prototype.toString`: elements joined with `,`. -/
def jsArrToString : List JVal → String
  | [] => ""
  | [x] => jsToString x
  | x :: y :: xs => jsToString x ++ "," ++ jsArrToString (y :: xs)

end

/-! ## String helpers (JS `includes`, `trim`, `toUpperCase`) -/

/-- `isPrefixB n h` decides whether the character list `n` is a prefix of
`h`. -/
def isPrefixB : List Char → List Char → Bool
  | [], _ => true
  | _ :: _, [] => false
  | a :: as, b :: bs => a == b && isPrefixB as bs

/-- `isSubstrB n h` decides whether `n` occurs contiguously inside `h`
(the semantics of JavaScript `String.prototype.includes`). -/
def isSubstrB (needle : List Char) : List Char → Bool
  | [] => isPrefixB needle []
  | c :: cs => isPrefixB needle (c :: cs) || isSubstrB needle cs

/-- `includesS hay needle` models JavaScript `hay.includes(needle)`. -/
def includesS (hay needle : String) : Bool :=
  isSubstrB needle.toList hay.toList

/-- JavaScript `String.prototype.trim`: whitespace stripped from both
ends. -/
def trimList (cs : List Char) : List Char :=
  ((cs.dropWhile Char.isWhitespace).reverse.dropWhile Char.isWhitespace).reverse

/-- Normalization applied to the gateway's classification reply in
`analyzeIntentWithLLM`: `.trim().toUpperCase()`. -/
def normalizeReply (t : String) : String :=
  ⟨(trimList t.toList).map Char.toUpper⟩

/-! ## Intent classification (`analyzeIntentWithLLM`) -/

/-- The closed intent set (`IntentType` in `types.ts`). -/
inductive IntentType where
  | SEARCH_SPACE
  | ADD_SPACE
  | CREATE_USER_PROFILE
deriving DecidableEq

/-- `analyzeIntentWithLLM` from `src/index.ts`, with the gateway call made
explicit: `none` is a gateway failure (the `catch` branch), `some t` is the
raw text returned by the model.  The reply is trimmed and upper-cased, then
tested for containment of the three labels in priority order; everything
else defaults to `SEARCH_SPACE`. -/
def analyzeIntentWithLLM (gatewayReply : Option String) : IntentType :=
  match gatewayReply with
  | none => .SEARCH_SPACE
  | some t =>
    let intentResult := normalizeReply t
    if includesS intentResult "SEARCH_SPACE" then .SEARCH_SPACE
    else if includesS intentResult "ADD_SPACE" then .ADD_SPACE
    else if includesS intentResult "CREATE_USER_PROFILE" then .CREATE_USER_PROFILE
    else .SEARCH_SPACE

/-! ## Sessions and the conversation store (`ChatSession`, `SessionMessage`) -/

/-- Message roles in a stored session (`SessionMessage.role`). -/
inductive Role where
  | user
  | assistant
deriving DecidableEq

/-- One stored conversation turn (`SessionMessage` in `types.ts`; the
optional `metadata` payload is carried as attached search results or a
space id and is not read by any code path covered here). -/
structure SessionMessage where
  role : Role
  content : String
  intent_type : Option IntentType := none
  timestamp : Nat
deriving DecidableEq

/-- A per-session conversation history (`ChatSession` in `types.ts`). -/
structure ChatSession where
  session_id : String
  messages : List SessionMessage
  last_updated : Nat
  created_at : Nat
deriving DecidableEq

/-- `addMessageToSession` from `src/index.ts`: the current session is read
from the store (`none` when absent — a new session is then created), the
message is appended, and the history is truncated to the most recent 20
turns (`messages.slice(-20)`) before being written back. -/
def addMessageToSession (sessionOpt : Option ChatSession) (sessionId : String)
    (message : SessionMessage) (now : Nat) : ChatSession :=
  let session := match sessionOpt with
    | some s => s
    | none => { session_id := sessionId, messages := [], last_updated := now, created_at := now }
  let msgs := session.messages ++ [message]
  let msgs := if 20 < msgs.length then msgs.drop (msgs.length - 20) else msgs
  { session with messages := msgs, last_updated := now }

/-- `getConversationContext` from `src/index.ts`: the most recent 10 turns
(`messages.slice(-10)`), or `[]` when the session is absent or the read
fails. -/
def getConversationContext (sessionOpt : Option ChatSession) : List SessionMessage :=
  match sessionOpt with
  | none => []
  | some s => s.messages.drop (s.messages.length - 10)

/-- A session history built by delivering the listed (message, timestamp)
pairs one by one through `addMessageToSession`, starting from a session id
with no stored session (the lazy-creation path). -/
def runSession (sessionId : String) (ms : List (SessionMessage × Nat)) : Option ChatSession :=
  ms.foldl (fun acc mt => some (addMessageToSession acc sessionId mt.1 mt.2)) none

/-! ## Registration configuration and state -/

/-- One entry of the static step catalogue (`SpaceRegistrationStep`). -/
structure SpaceRegistrationStep where
  step : Nat
  field_name : String
  description : String
  required : Bool
  «example» : String
deriving DecidableEq

/-- The step catalogue `SPACE_REGISTRATION_STEPS` from `src/index.ts`. -/
def SPACE_REGISTRATION_STEPS : List SpaceRegistrationStep :=
  [ ⟨1, "name", "공간의 이름", true, "예: '홍대 카페', '스튜디오 A'"⟩,
    ⟨2, "address", "공간의 주소", true, "예: '서울특별시 마포구 홍대로 123'"⟩,
    ⟨3, "space_type", "공간 유형", true, "예: 'Indoor', 'Outdoor', 'Semi-Private'"⟩,
    ⟨4, "max_capacity", "최대 수용 인원", true, "예: 10, 20, 50"⟩,
    ⟨5, "area_size", "면적 (제곱미터)", true, "예: 30, 50, 100"⟩,
    ⟨6, "amenities", "시설 및 편의시설", false, "예: '전기, 의자, 테이블, 음향시설'"⟩,
    ⟨7, "fee_policy", "이용료 정책", true, "예: '무료', '시간당 10,000원', '일일 50,000원'"⟩,
    ⟨8, "opening_hours", "운영 시간", true, "예: '평일 09:00-18:00, 주말 10:00-17:00'"⟩ ]

/-- `SPACE_REGISTRATION_STEPS.find(step => step.step === n)`. -/
def findStep (n : Nat) : Option SpaceRegistrationStep :=
  SPACE_REGISTRATION_STEPS.find? (fun s => s.step == n)

/-- The transient slot-filling state (`SpaceRegistrationState`).  The
`collected_data` dictionary is an association list in which the most recent
binding of a field name shadows older ones (assignment overwrites). -/
structure SpaceRegistrationState where
  session_id : String
  step : Nat
  collected_data : List (String × JVal)
  required_fields : List String
  last_updated : Nat

/-- Dictionary read on `collected_data`: a missing property is
`undefined`, modelled by `JVal.null`. -/
def dget (d : List (String × JVal)) (k : String) : JVal :=
  (d.lookup k).getD .null

/-- Sensor flags of a space record. -/
structure SpaceSensors where
  noise : Bool
  cctv : Bool
deriving DecidableEq

/-- Booking policy of a space record. -/
structure SpaceBookingPolicy where
  cancellation : Bool
  modification : Bool
  reservation_required : Bool
  deposit_required : Bool
deriving DecidableEq

/-- A persisted space record (`KVSpaceData` in `types.ts`).  Fields sourced
from the dynamically-typed `collected_data` dictionary keep the JSON value
type `JVal`; fields the finalization code writes with fixed literals carry
their literal types.  `last_updated` holds the write timestamp (the source
stores `new Date().toISOString()`). -/
structure KVSpaceData where
  space_id : String
  name : JVal
  space_type : JVal
  address : JVal
  coordinate : JVal
  access_type : String
  min_capacity : Option Int
  max_capacity : JVal
  area_size : JVal
  sensors : SpaceSensors
  opening_hours : JVal
  booking_policy : SpaceBookingPolicy
  min_mins_per_use : Option Int
  max_mins_per_use : Option Int
  fee_policy : JVal
  status : String
  last_updated : Nat
  amenities : JVal
  accessibility : List String
  memory_narrative : String
  characteristics : JVal
  temporal_pattern : JVal
  outcome_affordance : JVal
  governance_mode : JVal
  norm : JVal
  owner_entity : String

/-! ## The key-value store -/

/-- A value held in the worker's KV namespace: a finalized space record, an
in-progress registration state, or a chat session.  All three share one
namespace, distinguished only by key naming conventions. -/
inductive StoreVal where
  | space (r : KVSpaceData)
  | reg (s : SpaceRegistrationState)
  | session (c : ChatSession)

/-- The KV namespace: an association list from keys to stored values, the
most recent binding of a key shadowing older ones. -/
abbrev Store := List (String × StoreVal)

/-- `env.KV.get(key)`: the current binding of `key`, or absent. -/
def kvGet (store : Store) (k : String) : Option StoreVal :=
  store.lookup k

/-- `env.KV.put(key, value)`: rebinds `key`, discarding older bindings. -/
def kvPut (store : Store) (k : String) (v : StoreVal) : Store :=
  (k, v) :: store.filter (fun e => e.1 != k)

/-- `env.KV.delete(key)`. -/
def kvDelete (store : Store) (k : String) : Store :=
  store.filter (fun e => e.1 != k)

/-- `getSpaceRegistrationState`: reads `space_registration:<sessionId>`;
its internal `catch` turns a thrown storage read (`readFails = true`) into
`null`, indistinguishable from an absent state. -/
def getSpaceRegistrationState (readFails : Bool) (store : Store)
    (sessionId : String) : Option SpaceRegistrationState :=
  if readFails then none
  else match kvGet store ("space_registration:" ++ sessionId) with
    | some (.reg s) => some s
    | _ => none

/-- `saveSpaceRegistrationState`: writes the state under
`space_registration:<sessionId>`; its internal `catch` swallows a thrown
write (`writeFails = true`), leaving the store unchanged. -/
def saveSpaceRegistrationState (writeFails : Bool) (store : Store)
    (state : SpaceRegistrationState) : Store :=
  if writeFails then store
  else kvPut store ("space_registration:" ++ state.session_id) (.reg state)

/-- `initializeSpaceRegistration`: a fresh step-1 state with empty
collected data, immediately persisted. -/
def initializeSpaceRegistration (writeFails : Bool) (store : Store)
    (sessionId : String) (now : Nat) : Store × SpaceRegistrationState :=
  let state : SpaceRegistrationState :=
    { session_id := sessionId
      step := 1
      collected_data := []
      required_fields := SPACE_REGISTRATION_STEPS.map (·.field_name)
      last_updated := now }
  (saveSpaceRegistrationState writeFails store state, state)

/-! ## Identifier generation (`generateSpaceId`) -/

/-- The digit-run value extracted by `parseInt` on a `\d+` capture. -/
def digitsToNat (ds : List Char) : Nat :=
  ds.foldl (fun acc c => acc * 10 + (c.toNat - 48)) 0

/-- One attempt of the regex `/space-(\d+)/` at the head of `cs`: succeeds
when `cs` starts with `space-` followed by at least one digit, capturing
the maximal digit run. -/
def matchSpaceAt (cs : List Char) : Option Nat :=
  if isPrefixB "space-".toList cs then
    let ds := (cs.drop 6).takeWhile Char.isDigit
    if ds.isEmpty then none else some (digitsToNat ds)
  else none

/-- `key.match(/space-(\d+)/)`: the leftmost match wins. -/
def findSpaceNum : List Char → Option Nat
  | [] => none
  | c :: cs =>
    match matchSpaceAt (c :: cs) with
    | some n => some n
    | none => findSpaceNum cs

/-- `generateSpaceId` from `src/index.ts`: lists the keys carrying the
`space-` name pattern, takes the maximum captured number over those
matching `/space-(\d+)/`, and returns `space-` followed by that maximum
plus one; if the scan throws (`scanFails = true`), falls back to `space-`
followed by the current time (`Date.now()`). -/
def generateSpaceId (scanFails : Bool) (now : Nat) (store : Store) : String :=
  if scanFails then "space-" ++ toString now
  else
    let keys := (store.map (·.1)).filter (fun k => isPrefixB "space-".toList k.toList)
    let maxNumber := keys.foldl (fun acc k =>
      match findSpaceNum k.toList with
      | some number => if acc < number then number else acc
      | none => acc) 0
    "space-" ++ toString (maxNumber + 1)

/-- The test `value !== null` (strict inequality against `null`). -/
def isNullJ : JVal → Bool
  | .null => true
  | _ => false

/-! ## Per-field extraction (`extractSpaceDataFromMessage`) -/

/-- The observable outcome of the gateway call inside
`extractSpaceDataFromMessage`: the call may throw, its reply may fail
`JSON.parse`, or it may parse to `{extracted_value, is_valid}`. -/
inductive ExtractOutcome where
  | throws
  | parseFails
  | ok (extracted : JVal) (isValid : Bool)

/-- The `{extracted, isValid}` pair `extractSpaceDataFromMessage` hands to
the caller: both the thrown-call `catch` and the `JSON.parse` failure path
return `extracted = null`, `isValid = false`. -/
def extractResult : ExtractOutcome → JVal × Bool
  | .throws => (.null, false)
  | .parseFails => (.null, false)
  | .ok v b => (v, b)

/-! ## Finalization (`handleAddSpaceFlow`, completion branch) -/

/-- The default coordinate `{ lat: 0, lng: 0 }`. -/
def defaultCoordinate : JVal := .obj [("lat", .num 0), ("lng", .num 0)]

/-- The default opening hours: `"closed"` every day, `notes: null`. -/
def defaultOpeningHours : JVal :=
  .obj [ ("monday", .str "closed"), ("tuesday", .str "closed"),
         ("wednesday", .str "closed"), ("thursday", .str "closed"),
         ("friday", .str "closed"), ("saturday", .str "closed"),
         ("sunday", .str "closed"), ("holidays", .str "closed"),
         ("notes", .null) ]

/-- The `completeSpaceData` object literal built at finalization
(`src/index.ts` lines 818–860), applied to the collected data of the
completed registration. -/
def finalizeSpace (data : List (String × JVal)) (spaceId : String) (now : Nat) :
    KVSpaceData :=
  { space_id := spaceId
    name := jsOr (dget data "name") (.str "")
    space_type := jsOr (dget data "space_type") (.str "")
    address := jsOr (dget data "address") (.str "")
    coordinate := jsOr (dget data "coordinate") defaultCoordinate
    access_type := "open"
    min_capacity := none
    max_capacity := jsOr (dget data "max_capacity") (.num 0)
    area_size := jsOr (dget data "area_size") (.num 0)
    sensors := { noise := false, cctv := false }
    opening_hours := jsOr (dget data "opening_hours") defaultOpeningHours
    booking_policy :=
      { cancellation := false
        modification := true
        reservation_required := false
        deposit_required := false }
    min_mins_per_use := none
    max_mins_per_use := none
    fee_policy := jsOr (dget data "fee_policy") (.str "")
    status := "active"
    last_updated := now
    amenities := jsOr (dget data "amenities") (.arr [])
    accessibility := []
    memory_narrative := ""
    characteristics := .obj []
    temporal_pattern := .obj []
    outcome_affordance := .obj []
    governance_mode := .obj []
    norm := .obj []
    owner_entity := "user" }

/-! ## Reply templates of the ADD_SPACE flow -/

/-- "공간 등록 과정에서 오류가 발생했습니다" — emitted when the current
step number has no catalogue entry (and by the unreachable fallthrough). -/
def stepErrorMsg : String :=
  "공간 등록 과정에서 오류가 발생했습니다. 다시 시작해주세요."

/-- The generic apology of the outermost `catch`. -/
def genericErrorMsg : String :=
  "공간 등록 중 오류가 발생했습니다. 다시 시도해주세요."

/-- The retry reply of the invalid-extraction branch, restating the current
step's description and example. -/
def retryMsg (cur : SpaceRegistrationStep) : String :=
  "죄송합니다. " ++ cur.description ++ "을(를) 정확히 파악하지 못했습니다.\n\n"
    ++ cur.«example» ++ "\n\n다시 한 번 알려주시겠어요?"

/-- The confirmation-and-next-prompt reply of the advanced-step branch. -/
def nextPromptMsg (cur next : SpaceRegistrationStep) : String :=
  "좋습니다! " ++ cur.description ++ "이(가) 등록되었습니다.\n\n다음으로 "
    ++ next.description ++ "을(를) 알려주세요.\n" ++ next.«example»

/-- The completion reply summarizing the finalized record and its id. -/
def completionMsg (rec : KVSpaceData) (spaceId : String) : String :=
  "축하합니다! 공간 등록이 완료되었습니다. 🎉\n\n등록된 공간 정보:\n- 이름: "
    ++ jsToString rec.name ++ "\n- 주소: " ++ jsToString rec.address
    ++ "\n- 유형: " ++ jsToString rec.space_type ++ "\n- 수용 인원: "
    ++ jsToString rec.max_capacity ++ "명\n- 면적: " ++ jsToString rec.area_size
    ++ "㎡\n- 이용료: " ++ jsToString rec.fee_policy ++ "\n\n공간 ID: " ++ spaceId
    ++ "\n\n이제 다른 사용자들이 이 공간을 검색할 수 있습니다. 추가로 수정하고 싶은 정보가 있으시면 언제든 말씀해 주세요!"

/-- The value `handleAddSpaceFlow` resolves with (`status` and
`intent_type` are the constants `"SUCCESS"` and `"ADD_SPACE"` on every
path and are omitted; `is_completed`/`space_id` are absent — here `false`
and `none` — except on the completion path). -/
structure AddSpaceResult where
  llm_response : String
  is_completed : Bool
  space_id : Option String
deriving DecidableEq

/-- Oracle fixing the behaviour of every fallible external operation one
run of `handleAddSpaceFlow` performs: the registration-state read and
write, the gateway extraction call, the id-generation scan, and the two
direct finalization KV calls (`KV.put(spaceId, …)`, `KV.delete`).  A
`true` flag means that operation throws when reached. -/
structure FlowOracle where
  readStateFails : Bool
  writeStateFails : Bool
  extraction : ExtractOutcome
  idScanFails : Bool
  putRecordFails : Bool
  deleteStateFails : Bool

/-- `handleAddSpaceFlow` from `src/index.ts` (lines 777–911).  Returns the
store as left by the run together with the resolved response; the
outermost `catch` converts a throw of either direct finalization KV call
into the generic apology, every other failure being absorbed earlier
exactly as in the source (state read → `null` → fresh state; extraction
throw / parse failure → invalid result; state write → swallowed; id scan →
time-based fallback). -/
def handleAddSpaceFlow (o : FlowOracle) (sessionId : String) (now : Nat)
    (store : Store) : Store × AddSpaceResult :=
  let state0 := getSpaceRegistrationState o.readStateFails store sessionId
  let (store1, state) := match state0 with
    | some s => (store, s)
    | none => initializeSpaceRegistration o.writeStateFails store sessionId now
  match findStep state.step with
  | none => (store1, ⟨stepErrorMsg, false, none⟩)
  | some currentStep =>
    let extractionResult := extractResult o.extraction
    if extractionResult.2 && !isNullJ extractionResult.1 then
      let state :=
        { state with
          collected_data := (currentStep.field_name, extractionResult.1) :: state.collected_data
          last_updated := now
          step := state.step + 1 }
      if SPACE_REGISTRATION_STEPS.length < state.step then
        let spaceId := generateSpaceId o.idScanFails now store1
        let completeSpaceData := finalizeSpace state.collected_data spaceId now
        if o.putRecordFails then (store1, ⟨genericErrorMsg, false, none⟩)
        else
          let store2 := kvPut store1 spaceId (.space completeSpaceData)
          if o.deleteStateFails then (store2, ⟨genericErrorMsg, false, none⟩)
          else
            let store3 := kvDelete store2 ("space_registration:" ++ sessionId)
            (store3, ⟨completionMsg completeSpaceData spaceId, true, some spaceId⟩)
      else
        let store2 := saveSpaceRegistrationState o.writeStateFails store1 state
        match findStep state.step with
        | some nextStep => (store2, ⟨nextPromptMsg currentStep nextStep, false, none⟩)
        | none => (store2, ⟨stepErrorMsg, false, none⟩)
    else
      let store2 := saveSpaceRegistrationState o.writeStateFails store1 state
      (store2, ⟨retryMsg currentStep, false, none⟩)

/-! ## Search flow (`getAllSpacesFromKV`, `filterSpacesByMessage`,
`handleSearchSpaceFlow`) -/

/-- `getAllSpacesFromKV` from `src/index.ts`: lists **every** key of the
namespace (`env.KV.list()` is called with no prefix), fetches each key's
value and keeps the non-null ones; its internal `catch` turns a thrown
list/fetch (`storageFails = true`) into the empty record set. -/
def getAllSpacesFromKV (storageFails : Bool) (store : Store) : List StoreVal :=
  if storageFails then []
  else (store.map (·.1)).filterMap (kvGet store)

/-- Dynamic property access `value.address` as performed by the filter on
whatever `getAllSpacesFromKV` returned: on a non-record value the property
is `undefined` (`JVal.null`), which the `?.` chains of the filter treat as
no match. -/
def svAddress : StoreVal → JVal
  | .space r => r.address
  | _ => .null

/-- Dynamic property access `value.amenities` (see `svAddress`). -/
def svAmenities : StoreVal → JVal
  | .space r => r.amenities
  | _ => .null

/-- Dynamic property access `value.space_type` (see `svAddress`). -/
def svSpaceType : StoreVal → JVal
  | .space r => r.space_type
  | _ => .null

/-- Dynamic property access `value.name`, used by the deterministic
fallback reply of `generateSearchResultResponse`. -/
def svName : StoreVal → JVal
  | .space r => r.name
  | _ => .null

/-- `field?.includes(kw)` on a dynamically-typed field: a string field is
tested for containment, `null`/`undefined` short-circuits to no match. -/
def jIncludes (v : JVal) (needle : String) : Bool :=
  match v with
  | .str s => includesS s needle
  | _ => false

/-- `field?.some(p)` on a dynamically-typed field. -/
def jSome (v : JVal) (p : JVal → Bool) : Bool :=
  match v with
  | .arr xs => xs.any p
  | _ => false

/-- The per-record predicate of `filterSpacesByMessage` (lines 369–393):
the cascade of early-`return true` keyword checks, falling through to
`return false`. -/
def filterPred (message : String) (space : StoreVal) : Bool :=
  let lowerMessage := message
  if includesS lowerMessage "인천" && jIncludes (svAddress space) "인천" then true
  else if includesS lowerMessage "서울" && jIncludes (svAddress space) "서울" then true
  else if includesS lowerMessage "부산" && jIncludes (svAddress space) "부산" then true
  else if includesS lowerMessage "오디오" &&
      jSome (svAmenities space) (fun a => jIncludes a "음향" || jIncludes a "오디오") then true
  else if includesS lowerMessage "마이크" &&
      jSome (svAmenities space) (fun a => jIncludes a "마이크") then true
  else if includesS lowerMessage "프로젝터" &&
      jSome (svAmenities space) (fun a => jIncludes a "프로젝터") then true
  else if includesS lowerMessage "실내" && jIncludes (svSpaceType space) "indoor" then true
  else if includesS lowerMessage "야외" && jIncludes (svSpaceType space) "outdoor" then true
  else false

/-- `filterSpacesByMessage`. -/
def filterSpacesByMessage (spaces : List StoreVal) (message : String) : List StoreVal :=
  spaces.filter (filterPred message)

/-- The keyword-match relation as §4.4 of the specification words it: the
record is kept when its address, amenities or space-type field contains a
keyword matched in the message from the fixed recognized set.  Stated
independently of the code's if-cascade so that the two can be compared. -/
def specKeywordMatch (message : String) (space : StoreVal) : Bool :=
  (includesS message "인천" && jIncludes (svAddress space) "인천") ||
  (includesS message "서울" && jIncludes (svAddress space) "서울") ||
  (includesS message "부산" && jIncludes (svAddress space) "부산") ||
  (includesS message "오디오" &&
    jSome (svAmenities space) (fun a => jIncludes a "음향" || jIncludes a "오디오")) ||
  (includesS message "마이크" && jSome (svAmenities space) (fun a => jIncludes a "마이크")) ||
  (includesS message "프로젝터" && jSome (svAmenities space) (fun a => jIncludes a "프로젝터")) ||
  (includesS message "실내" && jIncludes (svSpaceType space) "indoor") ||
  (includesS message "야외" && jIncludes (svSpaceType space) "outdoor")

/-- Oracle for one run of `handleSearchSpaceFlow`: whether the storage
scan inside `getAllSpacesFromKV` throws, whether an exception is thrown by
the flow body itself and reaches the outermost `catch` (e.g. by the
display mapping), and the gateway's behaviour when the reply is
synthesized. -/
structure SearchOracle where
  storageFails : Bool
  bodyThrows : Bool
  gatewayFails : Bool
  gatewayText : String

/-- The value `handleSearchSpaceFlow` resolves with.  `data` carries the
retained records (the per-record display conversion
`convertKVSpaceToSpaceInfo` only reshapes each record and is not modelled
— no claim concerns the display shape); `search_mode` is
`search_context.search_mode` when a `search_context` is attached. -/
structure SearchSpaceResponse where
  data : List StoreVal
  total_count : Nat
  search_mode : Option String
  llm_response : String

/-- The localized apology of the search flow's outermost `catch`. -/
def searchErrorMsg : String :=
  "죄송합니다. 공간 검색 중 오류가 발생했습니다. 다시 시도해주세요."

/-- The deterministic zero-result fallback of
`generateSearchResultResponse`'s `catch`. -/
def searchEmptyFallbackMsg : String :=
  "죄송합니다. 요청하신 조건에 맞는 공간을 찾지 못했습니다. 다른 지역이나 조건으로 다시 검색해보시겠어요?"

/-- `generateSearchResultResponse`: asks the gateway for a conversational
reply; its internal `catch` falls back to a fixed templated sentence that
names the first matched record when any exist. -/
def generateSearchResultResponse (gatewayFails : Bool) (gatewayText : String)
    (data : List StoreVal) : String :=
  if gatewayFails then
    match data with
    | [] => searchEmptyFallbackMsg
    | d :: _ =>
      toString data.length ++ "개의 공간을 찾았습니다! 첫 번째 추천 공간은 \""
        ++ jsToString (svName d)
        ++ "\"입니다. 더 자세한 정보가 필요하시면 언제든 말씀해 주세요."
  else gatewayText

/-- `handleSearchSpaceFlow` from `src/index.ts` (lines 916–972): loads the
full candidate set, filters it by message keywords, synthesizes a reply,
and attaches no `search_context` on success; an exception escaping the
body is converted by the outermost `catch` into the zero-result response
marked `search_mode: "ERROR"` with the localized apology. -/
def handleSearchSpaceFlow (o : SearchOracle) (message : String) (store : Store) :
    SearchSpaceResponse :=
  if o.bodyThrows then
    { data := [], total_count := 0, search_mode := some "ERROR",
      llm_response := searchErrorMsg }
  else
    let spaceData := getAllSpacesFromKV o.storageFails store
    let filteredSpaces := filterSpacesByMessage spaceData message
    let llmResponse := generateSearchResultResponse o.gatewayFails o.gatewayText filteredSpaces
    { data := filteredSpaces, total_count := filteredSpaces.length,
      search_mode := none, llm_response := llmResponse }

/-! ## Store lemmas -/

theorem lookup_filter_ne (l : Store) (k j : String) (h : k ≠ j) :
    (l.filter (fun e => e.1 != j)).lookup k = l.lookup k := by
  have hkj : (k == j) = false := beq_eq_false_iff_ne.mpr h
  induction l with
  | nil => rfl
  | cons a t ih =>
    cases hab : (a.1 == j) with
    | true =>
      have hf : (a.1 != j) = false := by simp [bne, hab]
      have hka : (k == a.1) = false := by rw [eq_of_beq hab]; exact hkj
      simp [List.filter_cons, hf, List.lookup, hka, ih]
    | false =>
      have hf : (a.1 != j) = true := by simp [bne, hab]
      cases hka : (k == a.1) <;>
        simp [List.filter_cons, hf, List.lookup, hka, ih]

theorem kvGet_kvPut_self (store : Store) (k : String) (v : StoreVal) :
    kvGet (kvPut store k v) k = some v := by
  simp [kvGet, kvPut, List.lookup]

theorem kvGet_kvPut_ne (store : Store) (k j : String) (v : StoreVal) (h : k ≠ j) :
    kvGet (kvPut store j v) k = kvGet store k := by
  have hkj : (k == j) = false := beq_eq_false_iff_ne.mpr h
  simp only [kvGet, kvPut, List.lookup, hkj]
  exact lookup_filter_ne store k j h

theorem kvGet_kvDelete_self (store : Store) (k : String) :
    kvGet (kvDelete store k) k = none := by
  induction store with
  | nil => rfl
  | cons a t ih =>
    cases hab : (a.1 == k) with
    | true =>
      have hf : (a.1 != k) = false := by simp [bne, hab]
      simpa [kvDelete, List.filter_cons, hf] using ih
    | false =>
      have hf : (a.1 != k) = true := by simp [bne, hab]
      have h1 : a.1 ≠ k := beq_eq_false_iff_ne.mp hab
      have hka : (k == a.1) = false := beq_eq_false_iff_ne.mpr (fun e => h1 e.symm)
      simpa [kvDelete, kvGet, List.filter_cons, hf, List.lookup, hka] using ih

theorem kvGet_kvDelete_ne (store : Store) (k j : String) (h : k ≠ j) :
    kvGet (kvDelete store j) k = kvGet store k := by
  simpa [kvDelete, kvGet] using lookup_filter_ne store k j h

/-- A generated record key (`space-…`) is never a registration-state key
(`space_registration:…`): the two key families differ at their sixth
character. -/
theorem space_key_ne_reg_key (x y : String) :
    "space-" ++ x ≠ "space_registration:" ++ y := by
  intro h
  have h2 := congrArg String.data h
  have e1 : ("space-" ++ x).data = "space-".data ++ x.data := by cases x; rfl
  have e2 : ("space_registration:" ++ y).data = "space_registration:".data ++ y.data := by
    cases y; rfl
  have d1 : "space-".data = ['s', 'p', 'a', 'c', 'e', '-'] := rfl
  have d2 : "space_registration:".data
      = ['s', 'p', 'a', 'c', 'e', '_', 'r', 'e', 'g', 'i', 's', 't', 'r', 'a',
         't', 'i', 'o', 'n', ':'] := rfl
  rw [e1, e2, d1, d2] at h2
  simp at h2

theorem generateSpaceId_ne_reg_key (b : Bool) (now : Nat) (store : Store) (sid : String) :
    generateSpaceId b now store ≠ "space_registration:" ++ sid := by
  cases b with
  | true => exact space_key_ne_reg_key _ _
  | false => exact space_key_ne_reg_key _ _

/-! ## Claim C4 — fail-open intent classification -/

/-- C4: intent classification normalizes the gateway reply by trim and
uppercase and tests containment of the three label strings in the fixed
priority order `SEARCH_SPACE`, then `ADD_SPACE`, then
`CREATE_USER_PROFILE`; a reply containing none of the three labels, and a
gateway failure (`none`), both classify as `SEARCH_SPACE`, and no error is
surfaced (`analyzeIntentWithLLM` is total and always yields an intent). -/
theorem c4_intent_classification_fail_open :
    (∀ t, includesS (normalizeReply t) "SEARCH_SPACE" = true →
      analyzeIntentWithLLM (some t) = .SEARCH_SPACE)
    ∧ (∀ t, includesS (normalizeReply t) "SEARCH_SPACE" = false →
        includesS (normalizeReply t) "ADD_SPACE" = true →
        analyzeIntentWithLLM (some t) = .ADD_SPACE)
    ∧ (∀ t, includesS (normalizeReply t) "SEARCH_SPACE" = false →
        includesS (normalizeReply t) "ADD_SPACE" = false →
        includesS (normalizeReply t) "CREATE_USER_PROFILE" = true →
        analyzeIntentWithLLM (some t) = .CREATE_USER_PROFILE)
    ∧ (∀ t, includesS (normalizeReply t) "SEARCH_SPACE" = false →
        includesS (normalizeReply t) "ADD_SPACE" = false →
        includesS (normalizeReply t) "CREATE_USER_PROFILE" = false →
        analyzeIntentWithLLM (some t) = .SEARCH_SPACE)
    ∧ analyzeIntentWithLLM none = .SEARCH_SPACE := by
  refine ⟨fun t h1 => ?_, fun t h1 h2 => ?_, fun t h1 h2 h3 => ?_,
    fun t h1 h2 h3 => ?_, rfl⟩ <;>
    simp_all [analyzeIntentWithLLM]

/-- Concrete instances of `c4_intent_classification_fail_open`: a reply
containing the `ADD_SPACE` label after normalization classifies as
`ADD_SPACE`, and a reply containing no label classifies as
`SEARCH_SPACE`. -/
theorem c4_intent_classification_fail_open_witness :
    analyzeIntentWithLLM (some "  add_space  ") = .ADD_SPACE
    ∧ analyzeIntentWithLLM (some "도무지 모르겠어요") = .SEARCH_SPACE :=
  ⟨c4_intent_classification_fail_open.2.1 _ (by decide) (by decide),
   c4_intent_classification_fail_open.2.2.2.1 _ (by decide) (by decide) (by decide)⟩

/-! ## Claim C6 — bounded history and context -/

/-- The message list held by an optional session (absent sessions hold
nothing). -/
def msgsOf (sessionOpt : Option ChatSession) : List SessionMessage :=
  match sessionOpt with
  | none => []
  | some s => s.messages

theorem addMessageToSession_length_le (o : Option ChatSession) (sid : String)
    (m : SessionMessage) (now : Nat) :
    (addMessageToSession o sid m now).messages.length ≤ 20 := by
  cases o with
  | none =>
    simp only [addMessageToSession]
    split_ifs with h
    · simp only [List.length_drop]
      omega
    · simp only [List.length_append, List.length_cons, List.length_nil] at h ⊢
      omega
  | some s =>
    simp only [addMessageToSession]
    split_ifs with h
    · simp only [List.length_drop]
      omega
    · simp only [List.length_append, List.length_cons, List.length_nil] at h ⊢
      omega

theorem addMessageToSession_suffix (o : Option ChatSession) (sid : String)
    (m : SessionMessage) (now : Nat) :
    (addMessageToSession o sid m now).messages <:+ msgsOf o ++ [m] := by
  cases o <;> simp only [addMessageToSession, msgsOf] <;> split_ifs with h
  · exact List.drop_suffix _ _
  · exact List.suffix_refl _
  · exact List.drop_suffix _ _
  · exact List.suffix_refl _

theorem suffix_append_right {α : Type} {l₁ l₂ : List α} (h : l₁ <:+ l₂) (l : List α) :
    l₁ ++ l <:+ l₂ ++ l := by
  obtain ⟨t, ht⟩ := h
  exact ⟨t, by rw [← List.append_assoc, ht]⟩

theorem runSession_append_one (sid : String) (ms : List (SessionMessage × Nat))
    (mt : SessionMessage × Nat) :
    runSession sid (ms ++ [mt])
      = some (addMessageToSession (runSession sid ms) sid mt.1 mt.2) := by
  simp [runSession, List.foldl_append]

/-- C6: delivering any sequence of turns through `addMessageToSession`
keeps the stored history at 20 turns or fewer, the stored history is a
suffix of the full appended sequence (oldest turns dropped first), and the
context read back by `getConversationContext` is a suffix of the stored
history of length `min 10 n` (the most recent at most 10 turns). -/
theorem c6_history_bounded_context_recent :
    (∀ sid ms, (msgsOf (runSession sid ms)).length ≤ 20)
    ∧ (∀ sid ms, msgsOf (runSession sid ms) <:+ ms.map (·.1))
    ∧ (∀ o, getConversationContext o <:+ msgsOf o)
    ∧ (∀ o, (getConversationContext o).length = min 10 (msgsOf o).length) := by
  refine ⟨fun sid ms => ?_, fun sid ms => ?_, fun o => ?_, fun o => ?_⟩
  · induction ms using List.reverseRecOn with
    | nil => simp [runSession, msgsOf]
    | append_singleton ms mt ih =>
      rw [runSession_append_one]
      exact addMessageToSession_length_le _ _ _ _
  · induction ms using List.reverseRecOn with
    | nil => simp [runSession, msgsOf]
    | append_singleton ms mt ih =>
      rw [runSession_append_one]
      refine (addMessageToSession_suffix _ _ _ _).trans ?_
      have := suffix_append_right ih [mt.1]
      simpa using this
  · cases o with
    | none => exact List.suffix_refl _
    | some s => exact List.drop_suffix _ _
  · cases o with
    | none => simp [getConversationContext, msgsOf]
    | some s => simp [getConversationContext, msgsOf]; omega

/-! ## Claim C10 — the search candidate set is built with no prefix
restriction -/

theorem kvGet_cons_ne (a : String × StoreVal) (t : Store) (k : String) (h : k ≠ a.1) :
    kvGet (a :: t) k = kvGet t k := by
  have hka : (k == a.1) = false := beq_eq_false_iff_ne.mpr h
  simp [kvGet, List.lookup, hka]

theorem getAllSpacesFromKV_eq_values (store : Store)
    (h : (store.map (·.1)).Nodup) :
    getAllSpacesFromKV false store = store.map (·.2) := by
  induction store with
  | nil => rfl
  | cons a t ih =>
    simp only [List.map_cons, List.nodup_cons] at h
    have hhead : kvGet (a :: t) a.1 = some a.2 := by
      simp [kvGet, List.lookup]
    have hcong : ∀ k ∈ t.map (·.1), kvGet (a :: t) k = kvGet t k := by
      intro k hk
      exact kvGet_cons_ne a t k (fun e => h.1 (e ▸ hk))
    simp only [getAllSpacesFromKV, Bool.false_eq_true, if_false] at ih ⊢
    simp only [List.map_cons, List.filterMap_cons, hhead]
    rw [List.filterMap_congr hcong, ih h.2]

/-- C10: the search flow's candidate record set is produced by listing
every key of the store with no prefix restriction: under distinct keys it
is exactly the list of **all** stored values, so chat sessions (keys
`chat_session:…`) and registration states (keys `space_registration:…`)
are also fetched and handed to the keyword filter of
`handleSearchSpaceFlow` as if they were space records. -/
theorem c10_candidate_set_unrestricted :
    (∀ store : Store, (store.map (·.1)).Nodup →
      getAllSpacesFromKV false store = store.map (·.2))
    ∧ (∀ (store : Store) (sid : String) (c : ChatSession),
        (store.map (·.1)).Nodup → ("chat_session:" ++ sid, .session c) ∈ store →
        StoreVal.session c ∈ getAllSpacesFromKV false store)
    ∧ (∀ (store : Store) (sid : String) (s : SpaceRegistrationState),
        (store.map (·.1)).Nodup → ("space_registration:" ++ sid, .reg s) ∈ store →
        StoreVal.reg s ∈ getAllSpacesFromKV false store)
    ∧ (∀ (o : SearchOracle) (message : String) (store : Store),
        o.bodyThrows = false →
        (handleSearchSpaceFlow o message store).data
          = filterSpacesByMessage (getAllSpacesFromKV o.storageFails store) message) := by
  refine ⟨getAllSpacesFromKV_eq_values, fun store sid c h hm => ?_,
    fun store sid s h hm => ?_, fun o message store hb => ?_⟩
  · rw [getAllSpacesFromKV_eq_values store h]
    exact List.mem_map.mpr ⟨_, hm, rfl⟩
  · rw [getAllSpacesFromKV_eq_values store h]
    exact List.mem_map.mpr ⟨_, hm, rfl⟩
  · simp [handleSearchSpaceFlow, hb]

/-- Concrete instance of `c10_candidate_set_unrestricted`: a store holding
one space record, one chat session and one registration state yields all
three as search candidates. -/
theorem c10_candidate_set_unrestricted_witness :
    StoreVal.session ⟨"s9", [], 3, 3⟩ ∈ getAllSpacesFromKV false
      [("space-1", .space (finalizeSpace [] "space-1" 0)),
       ("chat_session:s9", .session ⟨"s9", [], 3, 3⟩),
       ("space_registration:s9", .reg ⟨"s9", 1, [], [], 3⟩)] :=
  c10_candidate_set_unrestricted.2.1 _ "s9" _ (by decide) (by simp)

/-! ## Claim C9 — identifier generation -/

theorem if_lt_eq_max (a n : Nat) : (if a < n then n else a) = max a n := by
  split <;> omega

theorem foldl_spaceNum_eq_max (keys : List String) (acc : Nat) :
    keys.foldl (fun acc k =>
        match findSpaceNum k.toList with
        | some number => if acc < number then number else acc
        | none => acc) acc
      = max acc ((keys.filterMap (fun k => findSpaceNum k.toList)).foldr max 0) := by
  induction keys generalizing acc with
  | nil => simp
  | cons k ks ih =>
    simp only [List.foldl_cons, List.filterMap_cons]
    cases hk : findSpaceNum k.toList with
    | none => simp only [hk]; exact ih acc
    | some n =>
      simp only [hk, List.foldr_cons]
      rw [ih, if_lt_eq_max]
      omega

/-- C9: for every store state, successful identifier generation scans the
keys carrying the `space-` record prefix, parses the digit suffix of each
key matching `/space-(\d+)/` (`findSpaceNum`), and returns `space-`
followed by the maximum parsed number plus one; when the scan fails it
returns `space-` followed by the current-time number. -/
theorem c9_generate_space_id :
    (∀ (now : Nat) (store : Store),
      generateSpaceId false now store
        = "space-" ++ toString
            ((((store.map (·.1)).filter
                (fun k => isPrefixB "space-".toList k.toList)).filterMap
              (fun k => findSpaceNum k.toList)).foldr max 0 + 1))
    ∧ (∀ (now : Nat) (store : Store),
        generateSpaceId true now store = "space-" ++ toString now) := by
  refine ⟨fun now store => ?_, fun now store => rfl⟩
  simp only [generateSpaceId, Bool.false_eq_true, if_false,
    foldl_spaceNum_eq_max, Nat.zero_max]

/-! ## Claim C7 — the keyword filter keeps exactly the matching records -/

theorem filterPred_eq_specKeywordMatch (message : String) (space : StoreVal) :
    filterPred message space = specKeywordMatch message space := by
  unfold filterPred specKeywordMatch
  dsimp only
  split_ifs <;> simp_all

/-- C7: the search filter keeps exactly the records whose address,
amenities or space-type field matches a keyword of the fixed recognized
set found in the message (`specKeywordMatch`, worded as in the
specification), and a message containing none of the recognized keywords
yields the empty result set — never the full record set. -/
theorem c7_filter_exactly_keyword_matches :
    (∀ (spaces : List StoreVal) (message : String) (s : StoreVal),
      s ∈ filterSpacesByMessage spaces message
        ↔ s ∈ spaces ∧ specKeywordMatch message s = true)
    ∧ (∀ (spaces : List StoreVal) (message : String),
        includesS message "인천" = false → includesS message "서울" = false →
        includesS message "부산" = false → includesS message "오디오" = false →
        includesS message "마이크" = false → includesS message "프로젝터" = false →
        includesS message "실내" = false → includesS message "야외" = false →
        filterSpacesByMessage spaces message = []) := by
  constructor
  · intro spaces message s
    rw [filterSpacesByMessage, List.mem_filter, filterPred_eq_specKeywordMatch]
  · intro spaces message h1 h2 h3 h4 h5 h6 h7 h8
    unfold filterSpacesByMessage
    apply List.filter_eq_nil_iff.mpr
    intro s _
    simp [filterPred, h1, h2, h3, h4, h5, h6, h7, h8]

/-- Concrete instance of `c7_filter_exactly_keyword_matches`: a message
with no recognized keyword returns no records even though a record
exists. -/
theorem c7_filter_exactly_keyword_matches_witness :
    filterSpacesByMessage
      [.space (finalizeSpace [("address", .str "인천 남동구 구월동")] "space-1" 0)]
      "아무 조건 없는 메시지" = [] :=
  c7_filter_exactly_keyword_matches.2 _ _ (by decide) (by decide) (by decide)
    (by decide) (by decide) (by decide) (by decide) (by decide)

/-! ## Claim C8 — search-flow failure handling (corrected) -/

/-- C8 counterexample: a storage failure during the search flow does
**not** produce the `search_mode: "ERROR"` marker — `getAllSpacesFromKV`
swallows the failure internally and returns the empty record set, so the
flow completes as a normal zero-result success response (`search_mode`
absent and the reply the zero-result fallback, not the outer-catch
apology), contradicting the claim that every storage failure yields the
ERROR-marked response. -/
theorem c8_counterexample_storage_failure_unmarked :
    (handleSearchSpaceFlow ⟨true, false, true, ""⟩ "인천"
        [("space-1", .space (finalizeSpace [("address", .str "인천 남동구")] "space-1" 0))]).search_mode
      = none
    ∧ (handleSearchSpaceFlow ⟨true, false, true, ""⟩ "인천"
        [("space-1", .space (finalizeSpace [("address", .str "인천 남동구")] "space-1" 0))]).llm_response
      ≠ searchErrorMsg :=
  ⟨rfl, by decide⟩

/-- C8 amended: only an exception escaping the search-flow body reaches
the outermost catch and produces the zero-result response carrying
`search_mode: "ERROR"` and the localized apology; a storage failure is
instead absorbed inside `getAllSpacesFromKV`, after which the flow runs
normally over an empty candidate set and returns a zero-result success
response without the ERROR marker.  In both cases the failure is never
propagated to the caller (`handleSearchSpaceFlow` always resolves with a
response). -/
theorem c8_amended_search_failure_semantics :
    (∀ (o : SearchOracle) (message : String) (store : Store),
      o.bodyThrows = true →
      handleSearchSpaceFlow o message store = ⟨[], 0, some "ERROR", searchErrorMsg⟩)
    ∧ (∀ (o : SearchOracle) (message : String) (store : Store),
        o.bodyThrows = false → o.storageFails = true →
        (handleSearchSpaceFlow o message store).total_count = 0
        ∧ (handleSearchSpaceFlow o message store).data = []
        ∧ (handleSearchSpaceFlow o message store).search_mode = none) := by
  constructor
  · intro o message store h
    simp [handleSearchSpaceFlow, h]
  · intro o message store hb hs
    simp [handleSearchSpaceFlow, hb, hs, getAllSpacesFromKV, filterSpacesByMessage]

/-- Concrete instance of `c8_amended_search_failure_semantics`: a body
exception yields exactly the ERROR-marked zero-result response. -/
theorem c8_amended_search_failure_semantics_witness :
    handleSearchSpaceFlow ⟨false, true, false, "답변"⟩ "서울 공간" []
      = ⟨[], 0, some "ERROR", searchErrorMsg⟩ :=
  c8_amended_search_failure_semantics.1 _ _ _ rfl

/-! ## Claim C2 — invalid extraction preserves the registration state -/

/-- Shared invalid-extraction lemma: with a stored state and the current
step resolved, an invalid extraction leaves the persisted state as loaded
and produces the retry reply. -/
theorem addSpace_invalid_preserves_state (o : FlowOracle)
    (sessionId : String) (now : Nat) (store : Store)
    (st : SpaceRegistrationState) (cur : SpaceRegistrationStep)
    (hre : o.readStateFails = false)
    (hget : getSpaceRegistrationState false store sessionId = some st)
    (hsid : st.session_id = sessionId)
    (hstep : findStep st.step = some cur)
    (hinv : (extractResult o.extraction).2 = false) :
    getSpaceRegistrationState false (handleAddSpaceFlow o sessionId now store).1 sessionId
      = some st
    ∧ (handleAddSpaceFlow o sessionId now store).2 = ⟨retryMsg cur, false, none⟩ := by
  have hcond : ((extractResult o.extraction).2
      && !isNullJ (extractResult o.extraction).1) = false := by
    rw [hinv]; rfl
  unfold handleAddSpaceFlow
  rw [hre, hget]
  simp only [hstep, hcond, Bool.false_eq_true, if_false]
  refine ⟨?_, trivial⟩
  cases hw : o.writeStateFails with
  | true => simpa [saveSpaceRegistrationState, hw] using hget
  | false =>
    simp [saveSpaceRegistrationState, hw, getSpaceRegistrationState, hsid,
      kvGet_kvPut_self]

/-- C2: while in the ADD_SPACE flow with a stored registration state, the
step number advances only when extraction reports valid; an extraction
reported invalid leaves the persisted state exactly as loaded — same step
number, same collected fields — and the reply restates the current field's
description and example asking the user to retry (`retryMsg`). -/
theorem c2_invalid_extraction_preserves_state (o : FlowOracle)
    (sessionId : String) (now : Nat) (store : Store)
    (st : SpaceRegistrationState) (cur : SpaceRegistrationStep)
    (hre : o.readStateFails = false)
    (hget : getSpaceRegistrationState false store sessionId = some st)
    (hsid : st.session_id = sessionId)
    (hstep : findStep st.step = some cur)
    (hinv : (extractResult o.extraction).2 = false) :
    getSpaceRegistrationState false (handleAddSpaceFlow o sessionId now store).1 sessionId
      = some st
    ∧ (handleAddSpaceFlow o sessionId now store).2 = ⟨retryMsg cur, false, none⟩ :=
  addSpace_invalid_preserves_state o sessionId now store st cur hre hget hsid hstep hinv

/-- Concrete instance of `c2_invalid_extraction_preserves_state`: an
invalid extraction at step 2 leaves the stored state (step 2, name already
collected) untouched and produces the retry reply for the address step. -/
theorem c2_invalid_extraction_preserves_state_witness :
    getSpaceRegistrationState false
        (handleAddSpaceFlow ⟨false, false, .ok (.str "서울") false, false, false, false⟩
          "s1" 44
          [("space_registration:s1",
            .reg ⟨"s1", 2, [("name", .str "스튜디오 A")], [], 7⟩)]).1 "s1"
      = some ⟨"s1", 2, [("name", .str "스튜디오 A")], [], 7⟩
    ∧ (handleAddSpaceFlow ⟨false, false, .ok (.str "서울") false, false, false, false⟩
          "s1" 44
          [("space_registration:s1",
            .reg ⟨"s1", 2, [("name", .str "스튜디오 A")], [], 7⟩)]).2
      = ⟨retryMsg ⟨2, "address", "공간의 주소", true, "예: '서울특별시 마포구 홍대로 123'"⟩,
          false, none⟩ :=
  c2_invalid_extraction_preserves_state _ _ _ _ _ _ rfl rfl rfl (by decide) rfl

/-! ## Claim C3 — the step-advance condition (corrected) -/

/-- C3 counterexample: the advance condition in the source is
`isValid && extracted !== null`, with no emptiness test — an extraction
reported valid whose value is the empty string `""` (non-null but empty)
**does** store the empty value and advance the step from 1 to 2,
contradicting the claim that an isValid result carrying an empty value
does not advance the step. -/
theorem c3_counterexample_empty_value_advances :
    getSpaceRegistrationState false
        (handleAddSpaceFlow ⟨false, false, .ok (.str "") true, false, false, false⟩
          "s2" 9 [("space_registration:s2", .reg ⟨"s2", 1, [], [], 0⟩)]).1 "s2"
      = some ⟨"s2", 2, [("name", .str "")], [], 9⟩ := rfl

theorem SPACE_REGISTRATION_STEPS_length : SPACE_REGISTRATION_STEPS.length = 8 := rfl

/-- C3 amended: the collected value is stored and the step number
incremented **iff** the extraction result's isValid flag is true and its
extractedValue is not null; in particular an isValid result carrying an
empty (but non-null) value does advance the step, the empty value being
stored under the current field.  (Stated for non-final steps, where the
advanced state is persisted rather than finalized.) -/
theorem c3_amended_advance_iff_valid_nonnull (o : FlowOracle)
    (sessionId : String) (now : Nat) (store : Store)
    (st : SpaceRegistrationState) (cur : SpaceRegistrationStep)
    (hre : o.readStateFails = false)
    (hw : o.writeStateFails = false)
    (hget : getSpaceRegistrationState false store sessionId = some st)
    (hsid : st.session_id = sessionId)
    (hstep : findStep st.step = some cur)
    (hlt : st.step < 8) :
    ((extractResult o.extraction).2 = true ∧ isNullJ (extractResult o.extraction).1 = false →
      getSpaceRegistrationState false (handleAddSpaceFlow o sessionId now store).1 sessionId
        = some { st with
                 step := st.step + 1
                 collected_data :=
                   (cur.field_name, (extractResult o.extraction).1) :: st.collected_data
                 last_updated := now })
    ∧ ((extractResult o.extraction).2 = false ∨ isNullJ (extractResult o.extraction).1 = true →
        getSpaceRegistrationState false (handleAddSpaceFlow o sessionId now store).1 sessionId
          = some st) := by
  constructor
  · rintro ⟨hv, hn⟩
    have hcond : ((extractResult o.extraction).2
        && !isNullJ (extractResult o.extraction).1) = true := by rw [hv, hn]; rfl
    unfold handleAddSpaceFlow
    rw [hre, hget]
    simp only [hstep, hcond, if_true, SPACE_REGISTRATION_STEPS_length]
    rw [if_neg (by omega)]
    cases hns : findStep (st.step + 1) <;>
      simp [saveSpaceRegistrationState, hw, getSpaceRegistrationState, hsid,
        kvGet_kvPut_self]
  · intro hbad
    have hcond : ((extractResult o.extraction).2
        && !isNullJ (extractResult o.extraction).1) = false := by
      cases hbad with
      | inl h => rw [h]; rfl
      | inr h => rw [h]; simp
    unfold handleAddSpaceFlow
    rw [hre, hget]
    simp only [hstep, hcond, Bool.false_eq_true, if_false]
    simp [saveSpaceRegistrationState, hw, getSpaceRegistrationState, hsid,
      kvGet_kvPut_self]

/-- Concrete instance of `c3_amended_advance_iff_valid_nonnull`: a valid
non-null extraction at step 1 stores the value and advances to step 2. -/
theorem c3_amended_advance_iff_valid_nonnull_witness :
    getSpaceRegistrationState false
        (handleAddSpaceFlow ⟨false, false, .ok (.str "스튜디오 A") true, false, false, false⟩
          "s3" 11 [("space_registration:s3", .reg ⟨"s3", 1, [], [], 2⟩)]).1 "s3"
      = some ⟨"s3", 2, [("name", .str "스튜디오 A")], [], 11⟩ :=
  (c3_amended_advance_iff_valid_nonnull
    ⟨false, false, .ok (.str "스튜디오 A") true, false, false, false⟩
    "s3" 11 [("space_registration:s3", .reg ⟨"s3", 1, [], [], 2⟩)]
    ⟨"s3", 1, [], [], 2⟩ ⟨1, "name", "공간의 이름", true, "예: '홍대 카페', '스튜디오 A'"⟩
    rfl rfl rfl rfl rfl (by decide)).1 ⟨rfl, rfl⟩

/-! ## Claim C5 — exception handling in the ADD_SPACE flow (corrected) -/

/-- C5 counterexample: an exception thrown by the storage **read** of the
registration state is caught inside `getSpaceRegistrationState` and
surfaces as "no state", so the handler reinitializes and persists a fresh
step-1 state — **overwriting** the stored step-3 state with its collected
fields — and replies with the step-1 retry message rather than the generic
apology.  This contradicts the claim that every exception during a storage
read leaves the stored flow state exactly as it was and yields the generic
apologetic message. -/
theorem c5_counterexample_read_failure_mutates_state :
    getSpaceRegistrationState false
        (handleAddSpaceFlow ⟨true, false, .throws, false, false, false⟩ "s1" 10
          [("space_registration:s1",
            .reg ⟨"s1", 3, [("address", .str "서울 마포구"), ("name", .str "카페")], [], 5⟩)]).1
        "s1"
      = some ⟨"s1", 1, [], SPACE_REGISTRATION_STEPS.map (·.field_name), 10⟩
    ∧ (handleAddSpaceFlow ⟨true, false, .throws, false, false, false⟩ "s1" 10
        [("space_registration:s1",
          .reg ⟨"s1", 3, [("address", .str "서울 마포구"), ("name", .str "카페")], [], 5⟩)]).2.llm_response
      ≠ genericErrorMsg :=
  ⟨rfl, by decide⟩

/-- C5 amended: the two **direct** finalization storage calls are the ones
guarded by the outermost catch: when the record write throws the handler
returns the generic apologetic message with the whole store left exactly
as it was (no partial step advance), and when the state delete throws
after a successful record write the handler returns the generic apology
with the record already persisted (and the registration state still
present).  An exception during extraction, by contrast, is absorbed inside
extraction as an invalid result: the stored state is preserved and the
reply is the retry message, not the apology.  In no case does
`handleAddSpaceFlow` propagate an exception (it always resolves with a
response). -/
theorem c5_amended_exception_handling (o : FlowOracle)
    (sessionId : String) (now : Nat) (store : Store)
    (st : SpaceRegistrationState) (cur : SpaceRegistrationStep)
    (hre : o.readStateFails = false)
    (hget : getSpaceRegistrationState false store sessionId = some st)
    (hsid : st.session_id = sessionId)
    (hstep : findStep st.step = some cur)
    (h8 : st.step = 8) :
    (o.extraction = .throws →
      getSpaceRegistrationState false (handleAddSpaceFlow o sessionId now store).1 sessionId
        = some st
      ∧ (handleAddSpaceFlow o sessionId now store).2 = ⟨retryMsg cur, false, none⟩)
    ∧ ((extractResult o.extraction).2 = true →
        isNullJ (extractResult o.extraction).1 = false →
        o.putRecordFails = true →
        (handleAddSpaceFlow o sessionId now store).1 = store
        ∧ (handleAddSpaceFlow o sessionId now store).2 = ⟨genericErrorMsg, false, none⟩)
    ∧ ((extractResult o.extraction).2 = true →
        isNullJ (extractResult o.extraction).1 = false →
        o.putRecordFails = false → o.deleteStateFails = true →
        (handleAddSpaceFlow o sessionId now store).1
          = kvPut store (generateSpaceId o.idScanFails now store)
              (.space (finalizeSpace
                ((cur.field_name, (extractResult o.extraction).1) :: st.collected_data)
                (generateSpaceId o.idScanFails now store) now))
        ∧ (handleAddSpaceFlow o sessionId now store).2
          = ⟨genericErrorMsg, false, none⟩) := by
  refine ⟨fun hthrows => ?_, fun hv hn hp => ?_, fun hv hn hp hd => ?_⟩
  · have hinv : (extractResult o.extraction).2 = false := by rw [hthrows]; rfl
    exact addSpace_invalid_preserves_state o sessionId now store st cur
      hre hget hsid hstep hinv
  · have hcond : ((extractResult o.extraction).2
        && !isNullJ (extractResult o.extraction).1) = true := by rw [hv, hn]; rfl
    unfold handleAddSpaceFlow
    rw [hre, hget]
    simp only [hstep, hcond, if_true]
    rw [if_pos (show SPACE_REGISTRATION_STEPS.length < st.step + 1 by
      rw [SPACE_REGISTRATION_STEPS_length, h8]; omega)]
    simp [hp]
  · have hcond : ((extractResult o.extraction).2
        && !isNullJ (extractResult o.extraction).1) = true := by rw [hv, hn]; rfl
    unfold handleAddSpaceFlow
    rw [hre, hget]
    simp only [hstep, hcond, if_true]
    rw [if_pos (show SPACE_REGISTRATION_STEPS.length < st.step + 1 by
      rw [SPACE_REGISTRATION_STEPS_length, h8]; omega)]
    simp [hp, hd]

/-- Concrete instance of `c5_amended_exception_handling`: with the state
at the final step and a valid extraction, a throwing record write leaves
the store untouched and yields the generic apology. -/
theorem c5_amended_exception_handling_witness :
    (handleAddSpaceFlow ⟨false, false, .ok (.str "평일 10시") true, false, true, false⟩
        "s4" 50
        [("space_registration:s4", .reg ⟨"s4", 8, [("name", .str "홀")], [], 6⟩)]).1
      = [("space_registration:s4", .reg ⟨"s4", 8, [("name", .str "홀")], [], 6⟩)]
    ∧ (handleAddSpaceFlow ⟨false, false, .ok (.str "평일 10시") true, false, true, false⟩
        "s4" 50
        [("space_registration:s4", .reg ⟨"s4", 8, [("name", .str "홀")], [], 6⟩)]).2
      = ⟨genericErrorMsg, false, none⟩ :=
  (c5_amended_exception_handling
    ⟨false, false, .ok (.str "평일 10시") true, false, true, false⟩ "s4" 50
    [("space_registration:s4", .reg ⟨"s4", 8, [("name", .str "홀")], [], 6⟩)]
    ⟨"s4", 8, [("name", .str "홀")], [], 6⟩
    ⟨8, "opening_hours", "운영 시간", true, "예: '평일 09:00-18:00, 주말 10:00-17:00'"⟩
    rfl rfl rfl rfl rfl).2.1 rfl rfl rfl

/-! ## Claim C1 — finalization of a completed registration (corrected) -/

theorem jsOr_of_truthy (a b : JVal) (h : truthy a = true) : jsOr a b = a := by
  simp [jsOr, h]

theorem jsOr_of_falsy (a b : JVal) (h : truthy a = false) : jsOr a b = b := by
  simp [jsOr, h]

/-- C1 counterexample: completing the final step persists a record whose
booking policy is `{cancellation: false, modification: true,
reservation_required: false, deposit_required: false}` — modification is
**allowed** — which differs from the no-cancellation/no-modification/
no-deposit booking policy the claim states as the default. -/
theorem c1_counterexample_booking_policy_modification :
    (match kvGet (handleAddSpaceFlow
        ⟨false, false, .ok (.str "평일 09:00-18:00") true, false, false, false⟩
        "s1" 100
        [("space_registration:s1",
          .reg ⟨"s1", 8,
            [("fee_policy", .str "무료"), ("amenities", .arr [.str "전기"]),
             ("area_size", .num 30), ("max_capacity", .num 10),
             ("space_type", .str "Indoor"), ("address", .str "인천 연수구 1"),
             ("name", .str "스튜디오 A")], [], 5⟩)]).1 "space-1" with
     | some (.space r) => some r.booking_policy
     | _ => none)
      = some ⟨false, true, false, false⟩
    ∧ (⟨false, true, false, false⟩ : SpaceBookingPolicy)
      ≠ ⟨false, false, false, false⟩ :=
  ⟨rfl, by decide⟩

/-- C1 amended: when a session's registration state stands at the final
step and extraction reports valid with a non-null value, the flow
finalizes exactly one `KVSpaceData` record from the union of the collected
values: it assigns the freshly generated identifier, persists the record
under it, deletes the transient registration state, touches no other key,
and returns the completion summary.  Every collected (truthy) field is
carried into the record unchanged; fields never exercised by a step take
the documented defaults — coordinate `(0,0)`, sensors off, `access_type`
`"open"`, `status` `"active"` — and a field collected with a falsy value
falls back to its default (empty amenities list, opening hours `"closed"`
every day); the booking-policy default is no-cancellation /
**modification-allowed** / no-reservation-required / no-deposit (the
`modification: true` flag is what the original claim mis-stated). -/
theorem c1_amended_finalization (o : FlowOracle)
    (sessionId : String) (now : Nat) (store : Store)
    (st : SpaceRegistrationState) (cur : SpaceRegistrationStep)
    (gid : String) (d : List (String × JVal)) (rec : KVSpaceData)
    (hre : o.readStateFails = false)
    (hget : getSpaceRegistrationState false store sessionId = some st)
    (hstep : findStep st.step = some cur)
    (h8 : st.step = 8)
    (hv : (extractResult o.extraction).2 = true)
    (hn : isNullJ (extractResult o.extraction).1 = false)
    (hp : o.putRecordFails = false)
    (hdel : o.deleteStateFails = false)
    (hgid : gid = generateSpaceId o.idScanFails now store)
    (hdata : d = (cur.field_name, (extractResult o.extraction).1) :: st.collected_data)
    (hrec : rec = finalizeSpace d gid now) :
    (handleAddSpaceFlow o sessionId now store).2
      = ⟨completionMsg rec gid, true, some gid⟩
    ∧ kvGet (handleAddSpaceFlow o sessionId now store).1 gid = some (.space rec)
    ∧ getSpaceRegistrationState false (handleAddSpaceFlow o sessionId now store).1 sessionId
      = none
    ∧ (∀ k, k ≠ gid → k ≠ "space_registration:" ++ sessionId →
        kvGet (handleAddSpaceFlow o sessionId now store).1 k = kvGet store k)
    ∧ ((truthy (dget d "name") = true → rec.name = dget d "name")
      ∧ (truthy (dget d "address") = true → rec.address = dget d "address")
      ∧ (truthy (dget d "space_type") = true → rec.space_type = dget d "space_type")
      ∧ (truthy (dget d "max_capacity") = true → rec.max_capacity = dget d "max_capacity")
      ∧ (truthy (dget d "area_size") = true → rec.area_size = dget d "area_size")
      ∧ (truthy (dget d "fee_policy") = true → rec.fee_policy = dget d "fee_policy")
      ∧ (truthy (dget d "amenities") = true → rec.amenities = dget d "amenities")
      ∧ (truthy (dget d "opening_hours") = true → rec.opening_hours = dget d "opening_hours")
      ∧ (truthy (dget d "amenities") = false → rec.amenities = .arr [])
      ∧ (truthy (dget d "opening_hours") = false → rec.opening_hours = defaultOpeningHours)
      ∧ (truthy (dget d "coordinate") = false → rec.coordinate = defaultCoordinate)
      ∧ rec.booking_policy = ⟨false, true, false, false⟩
      ∧ rec.sensors = ⟨false, false⟩
      ∧ rec.space_id = gid
      ∧ rec.access_type = "open"
      ∧ rec.status = "active") := by
  have hcond : ((extractResult o.extraction).2
      && !isNullJ (extractResult o.extraction).1) = true := by rw [hv, hn]; rfl
  subst hgid hdata hrec
  have hrun : handleAddSpaceFlow o sessionId now store
      = (kvDelete
          (kvPut store (generateSpaceId o.idScanFails now store)
            (.space (finalizeSpace
              ((cur.field_name, (extractResult o.extraction).1) :: st.collected_data)
              (generateSpaceId o.idScanFails now store) now)))
          ("space_registration:" ++ sessionId),
        ⟨completionMsg
          (finalizeSpace
            ((cur.field_name, (extractResult o.extraction).1) :: st.collected_data)
            (generateSpaceId o.idScanFails now store) now)
          (generateSpaceId o.idScanFails now store), true,
          some (generateSpaceId o.idScanFails now store)⟩) := by
    unfold handleAddSpaceFlow
    rw [hre, hget]
    simp only [hstep, hcond, if_true]
    rw [if_pos (show SPACE_REGISTRATION_STEPS.length < st.step + 1 by
      rw [SPACE_REGISTRATION_STEPS_length, h8]; omega)]
    simp [hp, hdel]
  have hne : generateSpaceId o.idScanFails now store
      ≠ "space_registration:" ++ sessionId :=
    generateSpaceId_ne_reg_key o.idScanFails now store sessionId
  refine ⟨?_, ?_, ?_, ?_, ?_⟩
  · rw [hrun]
  · rw [hrun]
    simp only
    rw [kvGet_kvDelete_ne _ _ _ hne, kvGet_kvPut_self]
  · rw [hrun]
    simp only [getSpaceRegistrationState]
    rw [kvGet_kvDelete_self]
    rfl
  · intro k hk1 hk2
    rw [hrun]
    simp only
    rw [kvGet_kvDelete_ne _ _ _ hk2, kvGet_kvPut_ne _ _ _ _ hk1]
  · refine ⟨fun h => ?_, fun h => ?_, fun h => ?_, fun h => ?_, fun h => ?_,
      fun h => ?_, fun h => ?_, fun h => ?_, fun h => ?_, fun h => ?_,
      fun h => ?_, rfl, rfl, rfl, rfl, rfl⟩ <;>
      simp only [finalizeSpace] <;>
      first
        | exact jsOr_of_truthy _ _ h
        | exact jsOr_of_falsy _ _ h

/-- Concrete instance of `c1_amended_finalization`: completing the final
step on a fully collected state persists the finalized record under the
fresh id `space-1` and deletes the registration state. -/
theorem c1_amended_finalization_witness :
    kvGet (handleAddSpaceFlow
        ⟨false, false, .ok (.str "평일 09:00-18:00") true, false, false, false⟩
        "s1" 100
        [("space_registration:s1",
          .reg ⟨"s1", 8,
            [("fee_policy", .str "무료"), ("amenities", .arr [.str "전기"]),
             ("area_size", .num 30), ("max_capacity", .num 10),
             ("space_type", .str "Indoor"), ("address", .str "인천 연수구 1"),
             ("name", .str "스튜디오 A")], [], 5⟩)]).1 "space-1"
      = some (.space (finalizeSpace
          [("opening_hours", .str "평일 09:00-18:00"),
           ("fee_policy", .str "무료"), ("amenities", .arr [.str "전기"]),
           ("area_size", .num 30), ("max_capacity", .num 10),
           ("space_type", .str "Indoor"), ("address", .str "인천 연수구 1"),
           ("name", .str "스튜디오 A")] "space-1" 100))
    ∧ getSpaceRegistrationState false (handleAddSpaceFlow
        ⟨false, false, .ok (.str "평일 09:00-18:00") true, false, false, false⟩
        "s1" 100
        [("space_registration:s1",
          .reg ⟨"s1", 8,
            [("fee_policy", .str "무료"), ("amenities", .arr [.str "전기"]),
             ("area_size", .num 30), ("max_capacity", .num 10),
             ("space_type", .str "Indoor"), ("address", .str "인천 연수구 1"),
             ("name", .str "스튜디오 A")], [], 5⟩)]).1 "s1"
      = none :=
  ⟨(c1_amended_finalization
      ⟨false, false, .ok (.str "평일 09:00-18:00") true, false, false, false⟩
      "s1" 100
      [("space_registration:s1",
        .reg ⟨"s1", 8,
          [("fee_policy", .str "무료"), ("amenities", .arr [.str "전기"]),
           ("area_size", .num 30), ("max_capacity", .num 10),
           ("space_type", .str "Indoor"), ("address", .str "인천 연수구 1"),
           ("name", .str "스튜디오 A")], [], 5⟩)]
      ⟨"s1", 8,
        [("fee_policy", .str "무료"), ("amenities", .arr [.str "전기"]),
         ("area_size", .num 30), ("max_capacity", .num 10),
         ("space_type", .str "Indoor"), ("address", .str "인천 연수구 1"),
         ("name", .str "스튜디오 A")], [], 5⟩
      ⟨8, "opening_hours", "운영 시간", true, "예: '평일 09:00-18:00, 주말 10:00-17:00'"⟩
      "space-1"
      [("opening_hours", .str "평일 09:00-18:00"),
       ("fee_policy", .str "무료"), ("amenities", .arr [.str "전기"]),
       ("area_size", .num 30), ("max_capacity", .num 10),
       ("space_type", .str "Indoor"), ("address", .str "인천 연수구 1"),
       ("name", .str "스튜디오 A")]
      (finalizeSpace
        [("opening_hours", .str "평일 09:00-18:00"),
         ("fee_policy", .str "무료"), ("amenities", .arr [.str "전기"]),
         ("area_size", .num 30), ("max_capacity", .num 10),
         ("space_type", .str "Indoor"), ("address", .str "인천 연수구 1"),
         ("name", .str "스튜디오 A")] "space-1" 100)
      rfl rfl rfl rfl rfl rfl rfl rfl rfl rfl rfl).2.1,
   (c1_amended_finalization
      ⟨false, false, .ok (.str "평일 09:00-18:00") true, false, false, false⟩
      "s1" 100
      [("space_registration:s1",
        .reg ⟨"s1", 8,
          [("fee_policy", .str "무료"), ("amenities", .arr [.str "전기"]),
           ("area_size", .num 30), ("max_capacity", .num 10),
           ("space_type", .str "Indoor"), ("address", .str "인천 연수구 1"),
           ("name", .str "스튜디오 A")], [], 5⟩)]
      ⟨"s1", 8,
        [("fee_policy", .str "무료"), ("amenities", .arr [.str "전기"]),
         ("area_size", .num 30), ("max_capacity", .num 10),
         ("space_type", .str "Indoor"), ("address", .str "인천 연수구 1"),
         ("name", .str "스튜디오 A")], [], 5⟩
      ⟨8, "opening_hours", "운영 시간", true, "예: '평일 09:00-18:00, 주말 10:00-17:00'"⟩
      "space-1"
      [("opening_hours", .str "평일 09:00-18:00"),
       ("fee_policy", .str "무료"), ("amenities", .arr [.str "전기"]),
       ("area_size", .num 30), ("max_capacity", .num 10),
       ("space_type", .str "Indoor"), ("address", .str "인천 연수구 1"),
       ("name", .str "스튜디오 A")]
      (finalizeSpace
        [("opening_hours", .str "평일 09:00-18:00"),
         ("fee_policy", .str "무료"), ("amenities", .arr [.str "전기"]),
         ("area_size", .num 30), ("max_capacity", .num 10),
         ("space_type", .str "Indoor"), ("address", .str "인천 연수구 1"),
         ("name", .str "스튜디오 A")] "space-1" 100)
      rfl rfl rfl rfl rfl rfl rfl rfl rfl rfl rfl).2.2.1⟩

end WeSharing
